import Mathlib

/-!
Verification of `decorated_watchdog` (src/decorated_watchdog.py): a shallow
embedding of the dispatch core — event filtering in
`FSAsyncEventHandler.dispatch`, the registration decorators of `FSWatcher`,
and the start/run/stop lifecycle — together with theorems settling the
specification's claims about it.

Stateful Python code is embedded as explicit state passing; a call that can
raise returns `State × Option String`, where `some msg` means the exception
with message `msg` escaped the call and the paired state records the
mutations performed before the raise (Python mutations persist across an
exception).
-/

namespace DecoratedWatchdog

/-! ## Constants (src/decorated_watchdog.py lines 10-15) -/

def EVENT_TYPE_ANY : String := "any"

def EVENT_TYPE_MOVED : String := "moved"

def EVENT_TYPE_DELETED : String := "deleted"

def EVENT_TYPE_CREATED : String := "created"

def EVENT_TYPE_MODIFIED : String := "modified"

def VERSION : String := "0.0.0"

/-! ## Data model -/

/-- A watchdog `FileSystemEvent`: the raw notification the observer delivers,
bearing an event type string, a source path, and a directory flag. -/
structure FileSystemEvent where
  event_type : String
  src_path : String
  is_directory : Bool
  deriving DecidableEq, Repr

/-- A Python callable registered as a handler. We track only its identity and
whether `inspect.iscoroutinefunction` holds of it, the two facts the source
consults. -/
structure Handler where
  id : Nat
  isCoroutine : Bool
  deriving DecidableEq, Repr

/-- Python `inspect.iscoroutinefunction` applied to a handler. -/
def iscoroutinefunction (h : Handler) : Bool := h.isCoroutine

/-- `FSCallback` (src/decorated_watchdog.py lines 18-25): an event type to look
for, a path, and the callback function to run. -/
structure FSCallback where
  event_type : String
  event_path : String
  callback_function : Handler
  deriving DecidableEq, Repr

/-- A scheduling request sitting in the event loop's queue: the pending
invocation of a handler's coroutine on an event (what
`call_soon_threadsafe(asyncio.create_task, coro)` enqueues). -/
structure PendingTask where
  handlerId : Nat
  event : FileSystemEvent
  deriving DecidableEq, Repr

/-- State of the asyncio event loop (the SchedulingContext). `closed` is true
once the loop has been torn down; `queue` holds scheduling requests enqueued
by `call_soon_threadsafe` and not yet run; `ranOnCallingThread` records the
ids of handlers whose body has been executed synchronously on the thread that
called into the dispatcher (it grows only when a plain, non-coroutine callable
is invoked there). -/
structure LoopState where
  closed : Bool
  queue : List PendingTask
  ranOnCallingThread : List Nat
  deriving DecidableEq, Repr

/-! ## Python call and asyncio semantics used by `dispatch` -/

/-- Semantics of the expression `self.callback_function(event)` evaluated on
the calling (watcher) thread: calling a coroutine function builds a coroutine
object without running any of its body, while calling a plain function runs
its body synchronously right there. The returned `PendingTask` is the
argument later handed to `asyncio.create_task`. -/
def callOnThread (h : Handler) (e : FileSystemEvent) (st : LoopState) :
    LoopState × PendingTask :=
  if h.isCoroutine then (st, ⟨h.id, e⟩)
  else ({st with ranOnCallingThread := st.ranOnCallingThread ++ [h.id]}, ⟨h.id, e⟩)

/-- Semantics of `loop.call_soon_threadsafe(asyncio.create_task, coro)`: on a
closed (torn-down) loop it raises `RuntimeError("Event loop is closed")`
without enqueuing; otherwise it appends the scheduling request to the loop's
queue and returns at once, before the request is run. -/
def call_soon_threadsafe (st : LoopState) (t : PendingTask) :
    LoopState × Option String :=
  if st.closed then (st, some "Event loop is closed")
  else ({st with queue := st.queue ++ [t]}, none)

/-! ## FSAsyncEventHandler (src/decorated_watchdog.py lines 28-42) -/

/-- `FSAsyncEventHandler`: holds the callback function and the event type that
triggers it (`__init__`, lines 29-36). The loop it captures is passed
explicitly as `LoopState` to `dispatch`. -/
structure FSAsyncEventHandler where
  callback_function : Handler
  event_type_trigger : String
  deriving DecidableEq, Repr

/-- `FSAsyncEventHandler.dispatch` (lines 38-42): if the event's type equals
the trigger string, evaluate `self.callback_function(event)` and hand the
result to `loop.call_soon_threadsafe(asyncio.create_task, ...)`; otherwise do
nothing. There is no try/except anywhere in the body, so an exception raised
by `call_soon_threadsafe` escapes `dispatch` (surfaces as `some msg`). -/
def FSAsyncEventHandler.dispatch (h : FSAsyncEventHandler) (st : LoopState)
    (e : FileSystemEvent) : LoopState × Option String :=
  if e.event_type == h.event_type_trigger then
    let p := callOnThread h.callback_function e st
    call_soon_threadsafe p.1 p.2
  else (st, none)

/-- Modelled from the spec's words (section 4.2), for comparison with the
source's `dispatch` guard: `matches` returns true iff (registration.kind is
the wildcard Any or equals the notification's kind) and the registration's
watch path is an ancestor-or-equal of the notification's path. -/
def specMatches (r : FSCallback) (n : FileSystemEvent) : Bool :=
  (r.event_type == EVENT_TYPE_ANY || r.event_type == n.event_type)
    && (r.event_path == n.src_path || n.src_path.startsWith (r.event_path ++ "/"))

/-! ## The observer (watchdog `Observer`, an external collaborator)

The observer is `watchdog.observers.Observer`, a `threading.Thread` subclass.
Its semantics below are those documented for the Python thread/observer API:
`Thread.start` may be called at most once and raises
`RuntimeError("threads can only be started once")` on a second call;
`BaseThread.stop` merely sets the internal stopped event (and never raises);
`Thread.join` raises `RuntimeError("cannot join thread before it is started")`
on a never-started thread, and otherwise blocks until the thread has
terminated and then returns. -/

/-- A watch subscription held by the observer: the adapter, the watched path,
and the recursive flag, as passed to `Observer.schedule`. -/
structure Subscription where
  event_handler : FSAsyncEventHandler
  path : String
  recursive : Bool
  deriving DecidableEq, Repr

/-- State of the watchdog observer thread. `started` is set once `start` has
been called; `alive` while the thread is running; `stopRequested` once the
stopped event has been set. -/
structure ObserverState where
  started : Bool
  alive : Bool
  stopRequested : Bool
  watches : List Subscription
  deriving DecidableEq, Repr

/-- `threading.Thread.start` semantics for the observer: a second start
raises; a first start launches the watcher thread. -/
def Observer.start (o : ObserverState) : ObserverState × Option String :=
  if o.started then (o, some "threads can only be started once")
  else ({o with started := true, alive := true}, none)

/-- `BaseThread.stop` semantics: set the stopped event so the watcher thread
stops producing notifications; never raises, in any state. -/
def Observer.stop (o : ObserverState) : ObserverState :=
  {o with stopRequested := true}

/-- `threading.Thread.join` semantics: joining a never-started thread raises;
otherwise the call blocks until the (stop-requested) watcher thread has fully
terminated, then returns. -/
def Observer.join (o : ObserverState) : ObserverState × Option String :=
  if !o.started then (o, some "cannot join thread before it is started")
  else ({o with alive := false}, none)

/-- `Observer.schedule` semantics: record a watch for the handler on the path
with the given recursive flag. -/
def Observer.schedule (o : ObserverState) (event_handler : FSAsyncEventHandler)
    (path : String) (recursive : Bool) : ObserverState :=
  {o with watches := o.watches ++ [⟨event_handler, path, recursive⟩]}

/-- A raw-notification delivery by the observer to one subscribed adapter:
only a live watcher thread whose stop has not been requested invokes the
adapter's `dispatch`; a stopped or never-started observer delivers nothing. -/
def Observer.deliver (o : ObserverState) (h : FSAsyncEventHandler)
    (st : LoopState) (e : FileSystemEvent) : LoopState × Option String :=
  if o.alive && !o.stopRequested then h.dispatch st e else (st, none)

/-! ## FSWatcher lifecycle (src/decorated_watchdog.py lines 45-81)

`FSWatcher` is a pydantic `BaseModel` whose attributes `_observer`,
`_callbacks` and `_loop` carry a leading underscore: pydantic (v1) ignores
underscore-prefixed annotated attributes, so they remain ordinary Python
class attributes — single mutable objects shared by every `FSWatcher`
instance rather than per-instance fields. The class-level state is therefore
one record. -/

/-- The class-level state shared by all `FSWatcher` instances: the single
observer object and the single callback list (the loop's state is threaded
separately as `LoopState`). -/
structure FSWatcherClassState where
  observer : ObserverState
  callbacks : List FSCallback
  deriving DecidableEq, Repr

/-- An `FSWatcher` instance. Because `_observer`, `_callbacks` and `_loop`
live on the class, an instance carries no state of its own beyond its
identity. -/
structure FSWatcherInstance where
  ref : Nat
  deriving DecidableEq, Repr

/-- `FSWatcher.start` (lines 72-73): `self._observer.start()`, nothing else —
no state check of its own. -/
def FSWatcher.start (o : ObserverState) : ObserverState × Option String :=
  Observer.start o

/-- `FSWatcher.stop` (lines 75-77): `self._observer.stop()` then
`self._observer.join()`. The stop mutation persists even when `join`
raises. -/
def FSWatcher.stop (o : ObserverState) : ObserverState × Option String :=
  Observer.join (Observer.stop o)

/-- `FSWatcher.run` (lines 79-81): the body is `pass`; it returns `None`,
raises nothing, and touches no state. -/
def FSWatcher.run (s : FSWatcherClassState) : FSWatcherClassState × Option String :=
  (s, none)

/-! ## run_async (src/decorated_watchdog.py lines 53-70), as an action trace

`run_async` is a coroutine whose observable behavior is a sequence of calls:
one `observer.schedule` per callback (raising as soon as a non-coroutine
callback is reached), then `self.start()` (which starts the observer), then
twenty `await asyncio.sleep(1)` iterations, then `self.stop()` (which stops
and joins the observer). We embed it as the list of these actions paired with
the exception, if one escaped; actions performed before a raise persist. -/

/-- One observable action of `run_async`. -/
inductive Action where
  | subscribe (path : String) (trigger : String) (handlerId : Nat) (recursive : Bool)
  | startObserver
  | sleep (seconds : Nat)
  | stopObserver
  | joinObserver
  deriving DecidableEq, Repr

/-- Whether an action is a subscription of an adapter to the observer. -/
def Action.isSubscribe : Action → Bool
  | .subscribe _ _ _ _ => true
  | _ => false

/-- The `for callback in self._callbacks` loop of `run_async` (lines 54-66):
each coroutine callback is wrapped in an `FSAsyncEventHandler` and scheduled
on the observer for its `event_path` with `recursive=True`; the first
non-coroutine callback raises
`Exception("FSWatcher only accepts coroutine functions as of version 0.0.0")`,
leaving the subscriptions already made in place and the rest unvisited. -/
def subscribeAll : List FSCallback → List Action × Option String
  | [] => ([], none)
  | c :: rest =>
    if iscoroutinefunction c.callback_function then
      let r := subscribeAll rest
      (Action.subscribe c.event_path c.event_type c.callback_function.id true :: r.1, r.2)
    else ([], some "FSWatcher only accepts coroutine functions as of version 0.0.0")

/-- `FSWatcher.run_async` (lines 53-70) as its action trace: the subscription
loop, then — only if no callback raised — `self.start()`, twenty one-second
sleeps, and `self.stop()` (observer stop followed by join). -/
def run_async (callbacks : List FSCallback) : List Action × Option String :=
  match subscribeAll callbacks with
  | (acts, some e) => (acts, some e)
  | (acts, none) =>
      (acts ++ [Action.startObserver] ++ List.replicate 20 (Action.sleep 1)
        ++ [Action.stopObserver, Action.joinObserver], none)

/-! ## Registration decorators (src/decorated_watchdog.py lines 83-181) -/

/-- `FSWatcher.on_any` (lines 83-101): the returned decorator appends one
`FSCallback` with event type `"any"` and the given path to the callback list
and returns the decorated handler unchanged; no validation, no error. -/
def FSWatcher.on_any (callbacks : List FSCallback) (path_to_watch : String)
    (event_handler : Handler) : List FSCallback × Handler :=
  (callbacks ++ [⟨EVENT_TYPE_ANY, path_to_watch, event_handler⟩], event_handler)

/-- `FSWatcher.on_moved` (lines 103-121): as `on_any`, with event type
`"moved"`. -/
def FSWatcher.on_moved (callbacks : List FSCallback) (path_to_watch : String)
    (event_handler : Handler) : List FSCallback × Handler :=
  (callbacks ++ [⟨EVENT_TYPE_MOVED, path_to_watch, event_handler⟩], event_handler)

/-- `FSWatcher.on_created` (lines 123-141): as `on_any`, with event type
`"created"`. -/
def FSWatcher.on_created (callbacks : List FSCallback) (path_to_watch : String)
    (event_handler : Handler) : List FSCallback × Handler :=
  (callbacks ++ [⟨EVENT_TYPE_CREATED, path_to_watch, event_handler⟩], event_handler)

/-- `FSWatcher.on_deleted` (lines 143-161): as `on_any`, with event type
`"deleted"`. -/
def FSWatcher.on_deleted (callbacks : List FSCallback) (path_to_watch : String)
    (event_handler : Handler) : List FSCallback × Handler :=
  (callbacks ++ [⟨EVENT_TYPE_DELETED, path_to_watch, event_handler⟩], event_handler)

/-- `FSWatcher.on_modified` (lines 163-181): as `on_any`, with event type
`"modified"`. -/
def FSWatcher.on_modified (callbacks : List FSCallback) (path_to_watch : String)
    (event_handler : Handler) : List FSCallback × Handler :=
  (callbacks ++ [⟨EVENT_TYPE_MODIFIED, path_to_watch, event_handler⟩], event_handler)

/-! ## Instance-level views of the shared class state

Because `_observer`, `_callbacks` and `_loop` are class attributes, every
attribute access `self._x` on any instance resolves to the same class-level
object; the instance argument is not consulted. -/

/-- Reading `self._callbacks` on an instance resolves to the class-level
callback list. -/
def readCallbacks (_self : FSWatcherInstance) (cls : FSWatcherClassState) :
    List FSCallback :=
  cls.callbacks

/-- `watcher.on_any(path)(handler)` through an instance: mutates the
class-level callback list shared by all instances. -/
def instanceOnAny (_self : FSWatcherInstance) (cls : FSWatcherClassState)
    (path_to_watch : String) (event_handler : Handler) :
    FSWatcherClassState × Handler :=
  let r := FSWatcher.on_any cls.callbacks path_to_watch event_handler
  ({cls with callbacks := r.1}, r.2)

/-- `watcher.start()` through an instance: acts on the class-level
observer. -/
def instanceStart (_self : FSWatcherInstance) (cls : FSWatcherClassState) :
    ObserverState × Option String :=
  FSWatcher.start cls.observer

/-- `watcher.stop()` through an instance: acts on the class-level
observer. -/
def instanceStop (_self : FSWatcherInstance) (cls : FSWatcherClassState) :
    ObserverState × Option String :=
  FSWatcher.stop cls.observer

/-! ## Derived notions used by the theorems -/

/-- The dispatch call schedules the handler: it returns without an exception
having enqueued exactly one scheduling request, for this handler on this
event, onto the loop's queue. -/
def dispatchSchedules (h : FSAsyncEventHandler) (st : LoopState)
    (e : FileSystemEvent) : Prop :=
  (h.dispatch st e).1.queue = st.queue ++ [⟨h.callback_function.id, e⟩]
  ∧ (h.dispatch st e).2 = none

/-- Subscription-loop helper: on a callback list containing a non-coroutine
callback, `subscribeAll` raises, and the actions performed are exactly one
subscription per callback of the longest all-coroutine prefix. -/
theorem subscribeAll_of_exists_bad (cbs : List FSCallback)
    (hbad : ∃ c ∈ cbs, iscoroutinefunction c.callback_function = false) :
    subscribeAll cbs
      = ((cbs.takeWhile (fun c => iscoroutinefunction c.callback_function)).map
          (fun c => Action.subscribe c.event_path c.event_type c.callback_function.id true),
        some "FSWatcher only accepts coroutine functions as of version 0.0.0") := by
  induction cbs with
  | nil => simp at hbad
  | cons c rest ih =>
    by_cases hc : iscoroutinefunction c.callback_function = true
    · have hrest : ∃ d ∈ rest, iscoroutinefunction d.callback_function = false := by
        rcases hbad with ⟨d, hd, hdf⟩
        rcases List.mem_cons.mp hd with h1 | h1
        · subst h1; simp [hc] at hdf
        · exact ⟨d, h1, hdf⟩
      simp [subscribeAll, hc, ih hrest, List.takeWhile_cons]
    · have hc' : iscoroutinefunction c.callback_function = false := by
        revert hc; cases iscoroutinefunction c.callback_function <;> simp
      simp [subscribeAll, hc', List.takeWhile_cons]

/-- Subscription-loop helper: on an all-coroutine callback list,
`subscribeAll` raises nothing and subscribes one adapter per callback, in
order, each with `recursive=True`. -/
theorem subscribeAll_of_all_good (cbs : List FSCallback)
    (hall : ∀ c ∈ cbs, iscoroutinefunction c.callback_function = true) :
    subscribeAll cbs
      = (cbs.map
          (fun c => Action.subscribe c.event_path c.event_type c.callback_function.id true),
        none) := by
  induction cbs with
  | nil => simp [subscribeAll]
  | cons c rest ih =>
    have hc : iscoroutinefunction c.callback_function = true := hall c (by simp)
    have hrest : ∀ d ∈ rest, iscoroutinefunction d.callback_function = true :=
      fun d hd => hall d (by simp [hd])
    simp [subscribeAll, hc, ih hrest]

/-! ## Claim theorems -/

/-- C1, counterexample. The claim states that `dispatch` treats a
notification as a match iff (the registered kind is the wildcard Any or
equals the notification's kind) and the watch path is an ancestor-or-equal of
the notification's path. At the concrete registration
{kind := "any", watch_path := "/tmp/watched"} and notification
{kind := "created", path := "/tmp/watched"} the spec-side `matches` is true
(wildcard kind, equal path) yet `dispatch` schedules nothing: the guard
compares the kind strings for exact equality and never special-cases the
wildcard. -/
theorem dispatch_wildcard_counterexample :
    ¬ (dispatchSchedules ⟨⟨0, true⟩, "any"⟩ ⟨false, [], []⟩
          ⟨"created", "/tmp/watched", false⟩
        ↔ specMatches ⟨"any", "/tmp/watched", ⟨0, true⟩⟩
            ⟨"created", "/tmp/watched", false⟩ = true) := by
  unfold dispatchSchedules
  decide

/-- C1, amended. With the scheduling context open, `dispatch` schedules the
handler iff the notification's kind equals the trigger string exactly: the
wildcard "any" is not special-cased and the path is never inspected by
`dispatch` (path scoping comes only from the recursive subscription of the
watch path at the event source). -/
theorem dispatch_matches_exact_kind_only (h : FSAsyncEventHandler)
    (st : LoopState) (e : FileSystemEvent) (hopen : st.closed = false) :
    dispatchSchedules h st e ↔ e.event_type = h.event_type_trigger := by
  by_cases hm : e.event_type = h.event_type_trigger
  · by_cases hco : h.callback_function.isCoroutine
    · simp [dispatchSchedules, FSAsyncEventHandler.dispatch, callOnThread,
        call_soon_threadsafe, hm, hco, hopen]
    · simp [dispatchSchedules, FSAsyncEventHandler.dispatch, callOnThread,
        call_soon_threadsafe, hm, hco, hopen]
  · have hm' : (e.event_type == h.event_type_trigger) = false := by
      exact beq_eq_false_iff_ne.mpr hm
    simp [dispatchSchedules, FSAsyncEventHandler.dispatch, hm', hm]

/-- C1, witness for the amended theorem at a concrete open loop, handler and
matching event. -/
theorem dispatch_matches_exact_kind_only_witness :
    (⟨false, [], []⟩ : LoopState).closed = false
    ∧ (dispatchSchedules ⟨⟨0, true⟩, "created"⟩ ⟨false, [], []⟩
          ⟨"created", "/tmp/watched", false⟩
        ↔ ("created" : String) = "created") :=
  ⟨rfl, dispatch_matches_exact_kind_only ⟨⟨0, true⟩, "created"⟩ ⟨false, [], []⟩
    ⟨"created", "/tmp/watched", false⟩ rfl⟩

/-- C2, counterexample. The claim states that with a non-coroutine handler in
the callback list, `run_async` raises before ANY registration has been
subscribed, including ones positioned before the offending handler. With the
concrete list [coroutine callback on "/w", plain callback on "/w2"], the run
does raise the configuration error, yet the trace already contains the
subscription of the first registration: the loop subscribes each coroutine
callback before it reaches and rejects the offending one. -/
theorem run_async_subscribes_before_raising :
    (run_async [⟨"any", "/w", ⟨0, true⟩⟩, ⟨"created", "/w2", ⟨1, false⟩⟩]).2.isSome = true
    ∧ (run_async [⟨"any", "/w", ⟨0, true⟩⟩, ⟨"created", "/w2", ⟨1, false⟩⟩]).1
      = [Action.subscribe "/w" "any" 0 true] := by
  constructor <;> rfl

/-- C2, amended. With a non-coroutine handler in the callback list,
`run_async` raises the configuration error without subscribing the offending
registration or any later one and without ever starting (or stopping) the
event source — but every registration of the longest all-coroutine prefix of
the list has already been subscribed when the error is raised. -/
theorem run_async_error_after_prefix_subscriptions (cbs : List FSCallback)
    (hbad : ∃ c ∈ cbs, iscoroutinefunction c.callback_function = false) :
    (run_async cbs).2
      = some "FSWatcher only accepts coroutine functions as of version 0.0.0"
    ∧ Action.startObserver ∉ (run_async cbs).1
    ∧ (run_async cbs).1
      = (cbs.takeWhile (fun c => iscoroutinefunction c.callback_function)).map
          (fun c => Action.subscribe c.event_path c.event_type c.callback_function.id true) := by
  have h := subscribeAll_of_exists_bad cbs hbad
  refine ⟨?_, ?_, ?_⟩
  · simp [run_async, h]
  · simp [run_async, h, List.mem_map]
  · simp [run_async, h]

/-- C2, witness for the amended theorem at the concrete two-callback list of
the counterexample. -/
theorem run_async_error_after_prefix_subscriptions_witness :
    (∃ c ∈ [(⟨"any", "/w", ⟨0, true⟩⟩ : FSCallback), ⟨"created", "/w2", ⟨1, false⟩⟩],
        iscoroutinefunction c.callback_function = false)
    ∧ ((run_async [⟨"any", "/w", ⟨0, true⟩⟩, ⟨"created", "/w2", ⟨1, false⟩⟩]).2
        = some "FSWatcher only accepts coroutine functions as of version 0.0.0"
      ∧ Action.startObserver
          ∉ (run_async [⟨"any", "/w", ⟨0, true⟩⟩, ⟨"created", "/w2", ⟨1, false⟩⟩]).1
      ∧ (run_async [⟨"any", "/w", ⟨0, true⟩⟩, ⟨"created", "/w2", ⟨1, false⟩⟩]).1
        = ([(⟨"any", "/w", ⟨0, true⟩⟩ : FSCallback), ⟨"created", "/w2", ⟨1, false⟩⟩].takeWhile
            (fun c => iscoroutinefunction c.callback_function)).map
            (fun c => Action.subscribe c.event_path c.event_type c.callback_function.id true)) :=
  ⟨⟨⟨"created", "/w2", ⟨1, false⟩⟩, by decide, rfl⟩,
    run_async_error_after_prefix_subscriptions
      [⟨"any", "/w", ⟨0, true⟩⟩, ⟨"created", "/w2", ⟨1, false⟩⟩]
      ⟨⟨"created", "/w2", ⟨1, false⟩⟩, by decide, rfl⟩⟩

/-- C3, confirmed. For a coroutine-function handler (the only kind ever
wrapped in an adapter, since `run_async` rejects the rest before
subscribing them), `dispatch` never executes the handler's body on the
calling thread: evaluating `self.callback_function(event)` merely builds a
coroutine object, and the only effect of the call on the loop is that at most
one scheduling request for this handler is appended to the queue — the
request is still pending, not begun, when `dispatch` returns. -/
theorem dispatch_never_runs_handler_inline (h : FSAsyncEventHandler)
    (st : LoopState) (e : FileSystemEvent)
    (hco : h.callback_function.isCoroutine = true) :
    (h.dispatch st e).1.ranOnCallingThread = st.ranOnCallingThread
    ∧ ((h.dispatch st e).1.queue = st.queue
        ∨ (h.dispatch st e).1.queue = st.queue ++ [⟨h.callback_function.id, e⟩]) := by
  by_cases hm : (e.event_type == h.event_type_trigger) = true
  · by_cases hcl : st.closed = true
    · simp [FSAsyncEventHandler.dispatch, callOnThread, call_soon_threadsafe, hm,
        hco, hcl]
    · simp [FSAsyncEventHandler.dispatch, callOnThread, call_soon_threadsafe, hm,
        hco, hcl]
  · simp [FSAsyncEventHandler.dispatch, hm]

/-- C3, witness at a concrete coroutine handler and matching event on an open
loop. -/
theorem dispatch_never_runs_handler_inline_witness :
    (⟨0, true⟩ : Handler).isCoroutine = true
    ∧ ((FSAsyncEventHandler.dispatch ⟨⟨0, true⟩, "created"⟩ ⟨false, [], []⟩
          ⟨"created", "/tmp/watched", false⟩).1.ranOnCallingThread
        = (⟨false, [], []⟩ : LoopState).ranOnCallingThread
      ∧ ((FSAsyncEventHandler.dispatch ⟨⟨0, true⟩, "created"⟩ ⟨false, [], []⟩
            ⟨"created", "/tmp/watched", false⟩).1.queue
          = (⟨false, [], []⟩ : LoopState).queue
        ∨ (FSAsyncEventHandler.dispatch ⟨⟨0, true⟩, "created"⟩ ⟨false, [], []⟩
            ⟨"created", "/tmp/watched", false⟩).1.queue
          = (⟨false, [], []⟩ : LoopState).queue
              ++ [⟨(⟨0, true⟩ : Handler).id, ⟨"created", "/tmp/watched", false⟩⟩])) :=
  ⟨rfl, dispatch_never_runs_handler_inline ⟨⟨0, true⟩, "created"⟩ ⟨false, [], []⟩
    ⟨"created", "/tmp/watched", false⟩ rfl⟩

/-- C4, counterexample. The claim states that `stop` on a non-Running session
fails with an InvalidStateTransition error and leaves the state unchanged. On
the concrete Stopped session (thread started, already terminated, stop
already requested) `FSWatcher.stop` raises nothing at all: `Observer.stop`
always succeeds and joining an already-terminated thread returns
immediately. -/
theorem stop_on_stopped_session_raises_nothing :
    FSWatcher.stop ⟨true, false, true, []⟩ = (⟨true, false, true, []⟩, none) := rfl

/-- C4, amended. `FSWatcher.start` and `FSWatcher.stop` keep no session state
machine and raise no InvalidStateTransition of their own; the errors are the
thread library's. `start` on an already-started session raises the
run-once error and leaves the state unchanged; `stop` on a never-started
(Idle) session first sets the stop-requested flag — a state change — and then
raises the join-before-start error; `stop` on any started session (Running or
already Stopped) raises nothing. -/
theorem start_stop_delegate_to_thread_semantics (o : ObserverState) :
    (o.started = true → FSWatcher.start o = (o, some "threads can only be started once"))
    ∧ (o.started = false →
        FSWatcher.stop o
          = ({o with stopRequested := true}, some "cannot join thread before it is started"))
    ∧ (o.started = true →
        FSWatcher.stop o = ({o with stopRequested := true, alive := false}, none)) := by
  refine ⟨fun h1 => ?_, fun h2 => ?_, fun h3 => ?_⟩
  · simp [FSWatcher.start, Observer.start, h1]
  · simp [FSWatcher.stop, Observer.stop, Observer.join, h2]
  · simp [FSWatcher.stop, Observer.stop, Observer.join, h3]

/-- C4, witness for the amended theorem: `stop` on the concrete Idle session
raises the join error with the stop-requested flag already set. -/
theorem start_stop_delegate_to_thread_semantics_witness :
    (⟨false, false, false, []⟩ : ObserverState).started = false
    ∧ FSWatcher.stop ⟨false, false, false, []⟩
      = (⟨false, false, true, []⟩, some "cannot join thread before it is started") :=
  ⟨rfl, (start_stop_delegate_to_thread_semantics ⟨false, false, false, []⟩).2.1 rfl⟩

/-- C5, counterexample. The claim states that a scheduling failure caused by
a torn-down scheduling context is caught inside the dispatch adapter and
never propagates into the watcher-thread callback invocation. At the concrete
closed loop and matching event, `dispatch` lets the
`RuntimeError("Event loop is closed")` raised by `call_soon_threadsafe`
escape: the body of `dispatch` (src/decorated_watchdog.py lines 38-42)
contains no exception handling at all. -/
theorem closed_loop_error_escapes_dispatch :
    (FSAsyncEventHandler.dispatch ⟨⟨0, true⟩, "created"⟩ ⟨true, [], []⟩
        ⟨"created", "/tmp/watched", false⟩).2 = some "Event loop is closed" := rfl

/-- C5, amended. When the scheduling context has been torn down (the loop is
closed) and the notification matches the trigger, the scheduling failure
propagates out of `dispatch` — and hence out of the adapter into the raw
event source's watcher-thread callback invocation — rather than being caught
and dropped. -/
theorem dispatch_propagates_closed_loop_error (h : FSAsyncEventHandler)
    (st : LoopState) (e : FileSystemEvent) (hcl : st.closed = true)
    (hm : e.event_type = h.event_type_trigger) :
    (h.dispatch st e).2 = some "Event loop is closed" := by
  by_cases hco : h.callback_function.isCoroutine
  · simp [FSAsyncEventHandler.dispatch, callOnThread, call_soon_threadsafe, hm,
      hco, hcl]
  · simp [FSAsyncEventHandler.dispatch, callOnThread, call_soon_threadsafe, hm,
      hco, hcl]

/-- C5, witness for the amended theorem at a concrete closed loop and
matching event. -/
theorem dispatch_propagates_closed_loop_error_witness :
    (⟨true, [], []⟩ : LoopState).closed = true
    ∧ ((⟨"created", "/tmp/watched", false⟩ : FileSystemEvent).event_type
        = (⟨⟨0, true⟩, "created"⟩ : FSAsyncEventHandler).event_type_trigger)
    ∧ (FSAsyncEventHandler.dispatch ⟨⟨0, true⟩, "created"⟩ ⟨true, [], []⟩
        ⟨"created", "/tmp/watched", false⟩).2 = some "Event loop is closed" :=
  ⟨rfl, rfl, dispatch_propagates_closed_loop_error ⟨⟨0, true⟩, "created"⟩
    ⟨true, [], []⟩ ⟨"created", "/tmp/watched", false⟩ rfl rfl⟩

/-- C6, confirmed. Each of the five registration decorators `on_any`,
`on_moved`, `on_created`, `on_deleted`, `on_modified` appends exactly one
`FSCallback` carrying its event kind, the given path and the given handler to
the callback list, and returns the handler unchanged; the operations are
total — no error and no handler validation at registration time. -/
theorem on_kind_appends_one_registration_and_returns_handler
    (callbacks : List FSCallback) (path : String) (h : Handler) :
    FSWatcher.on_any callbacks path h
      = (callbacks ++ [⟨EVENT_TYPE_ANY, path, h⟩], h)
    ∧ FSWatcher.on_moved callbacks path h
      = (callbacks ++ [⟨EVENT_TYPE_MOVED, path, h⟩], h)
    ∧ FSWatcher.on_created callbacks path h
      = (callbacks ++ [⟨EVENT_TYPE_CREATED, path, h⟩], h)
    ∧ FSWatcher.on_deleted callbacks path h
      = (callbacks ++ [⟨EVENT_TYPE_DELETED, path, h⟩], h)
    ∧ FSWatcher.on_modified callbacks path h
      = (callbacks ++ [⟨EVENT_TYPE_MODIFIED, path, h⟩], h) :=
  ⟨rfl, rfl, rfl, rfl, rfl⟩

/-- C7, confirmed. On a running session, `FSWatcher.stop` first signals the
observer to stop producing notifications and then joins the watcher thread:
it returns without error with the stop requested and the thread terminated,
and afterwards a delivery attempt by the observer invokes no dispatch — no
notification is filtered or scheduled after `stop` returns. -/
theorem stop_signals_joins_and_silences_delivery (o : ObserverState)
    (hs : o.started = true) (ha : o.alive = true) :
    (FSWatcher.stop o).2 = none
    ∧ (FSWatcher.stop o).1.stopRequested = true
    ∧ (FSWatcher.stop o).1.alive = false
    ∧ ∀ (h : FSAsyncEventHandler) (st : LoopState) (e : FileSystemEvent),
        Observer.deliver (FSWatcher.stop o).1 h st e = (st, none) := by
  refine ⟨?_, ?_, ?_, fun h st e => ?_⟩ <;>
    simp [FSWatcher.stop, Observer.stop, Observer.join, Observer.deliver, hs, ha]

/-- C7, witness at a concrete running session, with the post-stop delivery
attempt instantiated at a concrete adapter, loop and event. -/
theorem stop_signals_joins_and_silences_delivery_witness :
    (⟨true, true, false, []⟩ : ObserverState).started = true
    ∧ (⟨true, true, false, []⟩ : ObserverState).alive = true
    ∧ (FSWatcher.stop ⟨true, true, false, []⟩).2 = none
    ∧ Observer.deliver (FSWatcher.stop ⟨true, true, false, []⟩).1
        ⟨⟨0, true⟩, "created"⟩ ⟨false, [], []⟩ ⟨"created", "/tmp/watched", false⟩
      = (⟨false, [], []⟩, none) :=
  ⟨rfl, rfl,
    (stop_signals_joins_and_silences_delivery ⟨true, true, false, []⟩ rfl rfl).1,
    (stop_signals_joins_and_silences_delivery ⟨true, true, false, []⟩ rfl rfl).2.2.2
      ⟨⟨0, true⟩, "created"⟩ ⟨false, [], []⟩ ⟨"created", "/tmp/watched", false⟩⟩

/-- C8, confirmed. On a callback list whose handlers are all coroutine
functions, `run_async` subscribes one adapter per registration for its watch
path with `recursive=True`, in registration order, then starts the observer,
then sleeps one second exactly twenty times, then stops (and joins) the
observer, raising nothing. -/
theorem run_async_trace_of_all_coroutines (cbs : List FSCallback)
    (hall : ∀ c ∈ cbs, iscoroutinefunction c.callback_function = true) :
    run_async cbs
      = (cbs.map
            (fun c => Action.subscribe c.event_path c.event_type c.callback_function.id true)
          ++ [Action.startObserver] ++ List.replicate 20 (Action.sleep 1)
          ++ [Action.stopObserver, Action.joinObserver], none) := by
  simp [run_async, subscribeAll_of_all_good cbs hall]

/-- C8, witness at a concrete one-callback list with a coroutine handler. -/
theorem run_async_trace_of_all_coroutines_witness :
    (∀ c ∈ [(⟨"any", "/tmp/watched", ⟨0, true⟩⟩ : FSCallback)],
        iscoroutinefunction c.callback_function = true)
    ∧ run_async [⟨"any", "/tmp/watched", ⟨0, true⟩⟩]
      = ([(⟨"any", "/tmp/watched", ⟨0, true⟩⟩ : FSCallback)].map
            (fun c => Action.subscribe c.event_path c.event_type c.callback_function.id true)
          ++ [Action.startObserver] ++ List.replicate 20 (Action.sleep 1)
          ++ [Action.stopObserver, Action.joinObserver], none) :=
  ⟨by decide,
    run_async_trace_of_all_coroutines [⟨"any", "/tmp/watched", ⟨0, true⟩⟩] (by decide)⟩

/-- C9, confirmed. `_observer`, `_callbacks` and `_loop` are class-level
objects shared by every `FSWatcher` instance: a registration made through any
instance `w1` is visible in the callback list read through any instance `w2`,
and `start`/`stop` called through either instance act on the one shared
observer, so the two calls are indistinguishable. -/
theorem class_level_state_shared_across_instances
    (w1 w2 : FSWatcherInstance) (cls : FSWatcherClassState) (path : String)
    (h : Handler) :
    readCallbacks w2 (instanceOnAny w1 cls path h).1
      = readCallbacks w2 cls ++ [⟨EVENT_TYPE_ANY, path, h⟩]
    ∧ instanceStart w1 cls = instanceStart w2 cls
    ∧ instanceStop w1 cls = instanceStop w2 cls :=
  ⟨rfl, rfl, rfl⟩

/-- C10, confirmed. `FSWatcher.run` is a no-op in every state: it returns
`None`, raises nothing, and leaves the callback list and the observer — all
of the session state — unchanged. -/
theorem run_is_a_noop (s : FSWatcherClassState) :
    FSWatcher.run s = (s, none)
    ∧ (FSWatcher.run s).1.callbacks = s.callbacks
    ∧ (FSWatcher.run s).1.observer = s.observer :=
  ⟨rfl, rfl, rfl⟩

end DecoratedWatchdog
